import Mathlib

/-!
Verification of the Minimall-shell command interpreter (src/myshell.c).

The development shallowly embeds the core of `myshell.c`:
the tokenizer (`parse_line`), the builtin dispatcher (`execute_builtin`),
the external-process launcher (`execute_external`), the dispatch layer
(`execute_command`) and the main read-eval loop (`main`, embedded as
`runShell`).  System calls (`fork`, `waitpid`, `chdir`, `getcwd`, `getenv`)
are modelled by explicit oracles: a `World` records the environment and the
outcome of directory operations, and an `ExtOracle` records the outcome of
one `fork` and of the successive `waitpid` calls on the forked child.
-/

namespace Minimall

/-- Characters of a string, used to present shell input lines (C strings). -/
def chars (s : String) : List Char := s.data

/-- Delimiter set of the first `strtok_r` call in `parse_line`
(myshell.c line 105): the literal is `"\t\r\n"` — it does not contain
the space character. -/
def delims1 : List Char := ['\t', '\r', '\n']

/-- Delimiter set of the subsequent `strtok_r` calls in the loop
(myshell.c line 121): `" \t\r\n"`. -/
def delims2 : List Char := [' ', '\t', '\r', '\n']

/-- One `strtok_r` call on the remaining text `s` with delimiter set `d`:
skip leading delimiters; if nothing is left, return `none` (NULL);
otherwise the token runs up to the next delimiter, that delimiter is
overwritten with NUL and the saved position moves one past it. -/
def strtokStep (d : List Char) (s : List Char) : Option (List Char × List Char) :=
  let s1 := s.dropWhile (fun c => c ∈ d)
  match s1 with
  | [] => none
  | _ :: _ =>
    let tok := s1.takeWhile (fun c => ¬ c ∈ d)
    let r0 := s1.dropWhile (fun c => ¬ c ∈ d)
    some (tok, r0.tail)

/-- `MAX_ARGS` (myshell.c line 19). -/
def MAX_ARGS : Nat := 64

/-- The `Command` struct (myshell.c lines 29-33).  `args` models the
`char *args[MAX_ARGS]` slots (`none` = NULL pointer, the state `calloc`
leaves in every slot); `argc` and `background` are the other two fields. -/
structure Command where
  args : Nat → Option String
  argc : Nat
  background : Bool

/-- Slot `i` of the argument array (`cmd->args[i]`). -/
def Command.arg (c : Command) (i : Nat) : Option String := c.args i

/-- The argument slots `args[0] .. args[argc-1]` as a list of strings. -/
def Command.argList (c : Command) : List String :=
  (List.range c.argc).filterMap c.args

/-- The `while` loop of `parse_line` (myshell.c lines 107-122).  `tok` is
the token the previous `strtok_r` call returned (the loop is entered only
when it is non-NULL), `rest` the saved scan position.  The loop exits when
the token is `"&"` (setting `background`), when `argc` reaches
`MAX_ARGS - 1`, or when `strtok_r` returns NULL.  `fuel` bounds the
iteration count; callers pass `line.length + 1`, which is more than the
loop can consume. -/
def parseLoop (cmd : Command) (tok : List Char) (rest : List Char) : Nat → Command
  | 0 => cmd
  | fuel + 1 =>
    if cmd.argc < MAX_ARGS - 1 then
      if tok = ['&'] then { cmd with background := true }
      else
        let cmd' : Command :=
          { args := Function.update cmd.args cmd.argc (some (String.mk tok)),
            argc := cmd.argc + 1,
            background := cmd.background }
        match strtokStep delims2 rest with
        | none => cmd'
        | some (t, r) => parseLoop cmd' t r fuel
    else cmd

/-- `parse_line` up to the final NULL-termination write (myshell.c lines
91-122): the zeroed command from `calloc`, the first `strtok_r` call with
delimiters `"\t\r\n"`, then the token loop.  Allocation failures
(`calloc`/`strdup`) are assumed to succeed. -/
def parse_line_core (line : List Char) : Command :=
  match strtokStep delims1 line with
  | none => ⟨fun _ => none, 0, false⟩
  | some (t, r) => parseLoop ⟨fun _ => none, 0, false⟩ t r (line.length + 1)

/-- `parse_line` (myshell.c lines 91-127): the loop above followed by
`cmd->args[cmd->argc] = NULL` (line 124). -/
def parse_line (line : List Char) : Command :=
  let c := parse_line_core line
  { c with args := Function.update c.args c.argc none }

/-- Whitespace-only test for an input line, in the sense of the four
whitespace characters (space, tab, carriage return, newline). -/
def wsOnly (l : List Char) : Bool := l.all (fun c => c ∈ delims2)

/-- The diagnostics the shell prints to stderr, one constructor per
distinct message site (`fprintf`/`perror` calls in myshell.c). -/
inductive ErrMsg where
  | homeNotSet
  | chdirFailed
  | getcwdFailed
  | forkFailed
  | waitpidFailed
deriving DecidableEq

/-- The process environment and filesystem as the shell observes them:
the value of `HOME` (`getenv`), the current working directory, the
outcome of `chdir` (given current directory and target path, `some` the
resulting directory on success, `none` on failure — a failed `chdir`
leaves the working directory unchanged), and whether `getcwd` succeeds. -/
structure World where
  home : Option String
  cwd : String
  chdir : String → String → Option String
  getcwdOk : Bool

/-- Result of running one command: the `int` a function returns, or a
termination of the whole interpreter via `exit`, or (for the model of a
foreground wait whose oracle is exhausted) a launcher that is still
blocked. -/
inductive CmdRes where
  | ret (code : Int)
  | exitProc (code : Int)
  | blocked
deriving DecidableEq

/-- Value of the digit run at the front of `l`, as read by `atoi`. -/
def digitsVal (l : List Char) : Nat :=
  (l.takeWhile Char.isDigit).foldl (fun a c => a * 10 + (c.toNat - 48)) 0

/-- C `isspace` characters skipped by `atoi`. -/
def isSpaceC (c : Char) : Bool :=
  c = ' ' || c = '\t' || c = '\n' || c = '\x0b' || c = '\x0c' || c = '\r'

/-- C `atoi`: skip leading whitespace, read an optional sign, then the
longest digit run; anything else (including the empty run) contributes 0. -/
def atoi (s : String) : Int :=
  match s.data.dropWhile isSpaceC with
  | '-' :: rest => - (digitsVal rest : Int)
  | '+' :: rest => (digitsVal rest : Int)
  | l => (digitsVal l : Int)

/-- `execute_builtin` (myshell.c lines 201-251).  Matches `args[0]`
against `"cd"`, `"exit"`, `"help"`, `"pwd"` in source order and returns
`-1` otherwise.  Besides the returned code it yields the possibly updated
`World` (for `cd`) and the diagnostics printed.  `cd` uses `args[1]` when
`argc > 1`, else `HOME`; `exit` terminates the process with
`atoi(args[1])` when `argc > 1`, else 0.  (For commands produced by the
parser, `args[i]` is non-NULL whenever `i < argc`; `getD ""` totalises
the out-of-contract NULL dereference.) -/
def execute_builtin (cmd : Command) (w : World) : CmdRes × World × List ErrMsg :=
  let command := (cmd.arg 0).getD ""
  if command = "cd" then
    let path? := if 1 < cmd.argc then cmd.arg 1 else w.home
    match path? with
    | none => (.ret 1, w, [.homeNotSet])
    | some p =>
      match w.chdir w.cwd p with
      | none => (.ret 1, w, [.chdirFailed])
      | some newCwd => (.ret 0, { w with cwd := newCwd }, [])
  else if command = "exit" then
    (.exitProc (if 1 < cmd.argc then atoi ((cmd.arg 1).getD "") else 0), w, [])
  else if command = "help" then
    (.ret 0, w, [])
  else if command = "pwd" then
    if w.getcwdOk then (.ret 0, w, []) else (.ret 1, w, [.getcwdFailed])
  else
    (.ret (-1), w, [])

/-- Termination status of a child process as `waitpid` reports it:
normal exit (`WIFEXITED`, carrying the exit code, of which `WEXITSTATUS`
exposes the low 8 bits) or abnormal termination (e.g. killed by a
signal). -/
inductive ProcStatus where
  | exited (code : Nat)
  | signaled (sig : Nat)
deriving DecidableEq

/-- Outcome of one `waitpid(pid, &status, 0)` call on the forked child:
interrupted by a signal (`-1` with `errno == EINTR`), failed for another
reason (`-1`, other `errno`), or the child's termination status. -/
inductive WaitRes where
  | eintr
  | fail
  | ok (st : ProcStatus)
deriving DecidableEq

/-- Oracle for one external execution: the result of `fork` (`none` =
failure, `some pid` = child created) and the successive outcomes of the
parent's `waitpid` calls on that pid. -/
structure ExtOracle where
  forkPid : Option Nat
  waits : List WaitRes
deriving DecidableEq

/-- Result of `execute_external`: the returned status, the diagnostics
printed by the parent, and the pid of a background child left for the
signal coordinator (`none` in the foreground and failure cases). -/
structure ExtOut where
  res : CmdRes
  errs : List ErrMsg
  bgSpawn : Option Nat
deriving DecidableEq

/-- The `do`/`while` wait of `execute_external` (myshell.c lines
158-169): retry while `waitpid` is interrupted (`EINTR`); on another
failure report and return 1; on success return `WEXITSTATUS(status)` if
the child exited normally, and fall through to the final `return 0`
otherwise.  `none` models a wait that never completed. -/
def waitLoop : List WaitRes → Option (Int × List ErrMsg)
  | [] => none
  | .eintr :: rest => waitLoop rest
  | .fail :: _ => some (1, [.waitpidFailed])
  | .ok (.exited c) :: _ => some (((c % 256 : Nat) : Int), [])
  | .ok (.signaled _) :: _ => some (0, [])

/-- `execute_external` (myshell.c lines 133-176).  Fork failure is
reported and yields 1.  The child branch (`execvp` and the
command-not-found diagnostic) runs in the child process; its effect on
the parent is only the status the oracle's `waitpid` outcomes report.
In the parent: foreground commands run the wait loop; background
commands print the pid message and return 0 without waiting. -/
def execute_external (cmd : Command) (o : ExtOracle) : ExtOut :=
  match o.forkPid with
  | none => ⟨.ret 1, [.forkFailed], none⟩
  | some pid =>
    if cmd.background then ⟨.ret 0, [], some pid⟩
    else
      match waitLoop o.waits with
      | none => ⟨.blocked, [], none⟩
      | some (code, errs) => ⟨.ret code, errs, none⟩

/-- Result of `execute_command`: status, updated world, diagnostics, a
background child spawned (if any), and whether the external path ran
(consuming the external oracle). -/
structure CmdOut where
  res : CmdRes
  w : World
  errs : List ErrMsg
  bgSpawn : Option Nat
  usedOracle : Bool

/-- `execute_command` (myshell.c lines 182-196): commands with
`argc == 0` yield 0 untouched; otherwise the builtin dispatcher runs,
and exactly on its `-1` sentinel the external path is taken. -/
def execute_command (cmd : Command) (w : World) (o : ExtOracle) : CmdOut :=
  if cmd.argc = 0 then ⟨.ret 0, w, [], none, false⟩
  else
    match execute_builtin cmd w with
    | (CmdRes.ret r, w', errs) =>
      if r = -1 then
        let e := execute_external cmd o
        ⟨e.res, w', errs ++ e.errs, e.bgSpawn, true⟩
      else ⟨.ret r, w', errs, none, false⟩
    | (res, w', errs) => ⟨res, w', errs, none, false⟩

/-- Modelled from the spec: the bodies of `setup_signal_handlers` and
`sigchld_handler` are declared in myshell.c (lines 44-45, flag at line
48) but absent from the source tree; per spec §4.4 the `SIGCHLD` handler
only sets the flag-only indicator `child_exited`. -/
def sigchld_handler (_child_exited : Bool) : Bool :=
  true

/-- State threaded through the main loop: the world and the pids of
background children the shell has spawned and not reaped.  `main`
(myshell.c lines 258-292) contains no `waitpid(-1, …, WNOHANG)` drain
and never reads `child_exited`, so nothing in the loop removes entries
from `bgChildren`. -/
structure ShellSt where
  w : World
  bgChildren : List Nat

/-- The main REPL loop of `main` (myshell.c lines 264-291) run on a
finite input: `lines` are the lines `read_line` returns before
end-of-input, `os` the oracles for the successive external executions.
Empty lines are skipped (line 273), commands are dispatched only when
`argc > 0` (line 285); `exit` terminates the process with its code; at
end-of-input main returns `EXIT_SUCCESS` (0).  The result is the
process exit code (`none` when a foreground wait never completed) and
the final state. -/
def runShell : List (List Char) → List ExtOracle → ShellSt → Option Int × ShellSt
  | [], _, st => (some 0, st)
  | line :: rest, os, st =>
    if line = [] then runShell rest os st
    else
      let cmd := parse_line line
      if 0 < cmd.argc then
        let out := execute_command cmd st.w (os.headD ⟨none, []⟩)
        let os' := if out.usedOracle then os.tail else os
        let st' : ShellSt := ⟨out.w, st.bgChildren ++ out.bgSpawn.toList⟩
        match out.res with
        | .exitProc c => (some c, st')
        | .blocked => (none, st')
        | .ret _ => runShell rest os' st'
      else runShell rest os st

/-- Whether the first `strtok_r` call of `parse_line` (delimiters
`"\t\r\n"`) yields no token at all or yields exactly the token `"&"` —
the two cases in which the parse loop stores no argument. -/
def firstTokStops (l : List Char) : Bool :=
  match strtokStep delims1 l with
  | none => true
  | some (t, _) => t == ['&']

/-- An input line of 70 tab-separated tokens, exceeding `MAX_ARGS`. -/
def bigLine : List Char := (String.intercalate "\t" (List.replicate 70 "a")).data

/-- The parse loop never pushes `argc` past `MAX_ARGS - 1`: the loop
guard admits a store only when `argc < MAX_ARGS - 1`. -/
theorem parseLoop_argc_le (fuel : Nat) :
    ∀ cmd tok rest, cmd.argc ≤ MAX_ARGS - 1 →
      (parseLoop cmd tok rest fuel).argc ≤ MAX_ARGS - 1 := by
  induction fuel with
  | zero => intro cmd tok rest h; simpa [parseLoop] using h
  | succ n ih =>
    intro cmd tok rest h
    simp only [parseLoop]
    split
    · split
      · simpa using h
      · split
        · simp only [MAX_ARGS] at *; omega
        · apply ih
          simp only [MAX_ARGS] at *; omega
    · exact h

/-- The parse loop never decreases `argc`. -/
theorem parseLoop_argc_mono (fuel : Nat) :
    ∀ cmd tok rest, cmd.argc ≤ (parseLoop cmd tok rest fuel).argc := by
  induction fuel with
  | zero => intro cmd tok rest; simp [parseLoop]
  | succ n ih =>
    intro cmd tok rest
    simp only [parseLoop]
    split
    · split
      · simp
      · split
        · simp
        · exact Nat.le_trans (Nat.le_succ _)
            (ih { args := Function.update cmd.args cmd.argc (some (String.mk tok)),
                  argc := cmd.argc + 1, background := cmd.background } _ _)
    · exact Nat.le_refl _

/-- Interrupted `waitpid` calls are transparent to the wait loop: a run
of `EINTR` outcomes is retried past. -/
theorem waitLoop_eintr (k : Nat) (l : List WaitRes) :
    waitLoop (List.replicate k .eintr ++ l) = waitLoop l := by
  induction k with
  | zero => simp
  | succ n ih => simpa [List.replicate_succ, waitLoop] using ih

/-- A `"&"` token stops the loop at once: only `background` changes. -/
theorem parseLoop_amp (fuel : Nat) (cmd : Command) (rest : List Char)
    (h : cmd.argc < MAX_ARGS - 1) :
    parseLoop cmd ['&'] rest (fuel + 1) = { cmd with background := true } := by
  simp only [parseLoop]
  rw [if_pos h]
  simp

/-- A non-`"&"` token entering the loop below capacity is stored, so the
final `argc` is positive. -/
theorem parseLoop_pos (fuel : Nat) (cmd : Command) (tok rest : List Char)
    (h : ¬ tok = ['&']) (hc : cmd.argc < MAX_ARGS - 1) :
    0 < (parseLoop cmd tok rest (fuel + 1)).argc := by
  simp only [parseLoop]
  rw [if_pos hc, if_neg h]
  split
  · exact Nat.succ_pos _
  · exact Nat.lt_of_lt_of_le (Nat.succ_pos cmd.argc)
      (parseLoop_argc_mono fuel
        { args := Function.update cmd.args cmd.argc (some (String.mk tok)),
          argc := cmd.argc + 1, background := cmd.background } _ _)

/-- Claim C1: the tokenizer is claimed to split on space, tab, CR and
newline with collapsing, yielding `["echo","hi"]` for `"echo hi"` and
`["a","b","c"]` for `"a  b   c"`.  The code's first `strtok_r` call
(myshell.c line 105) uses the delimiter set `"\t\r\n"` without the
space, so the first token runs across spaces: both lines parse to a
single argument containing the spaces. -/
theorem C1_space_not_a_first_call_delimiter :
    (parse_line (chars "echo hi")).argList = ["echo hi"]
    ∧ (parse_line (chars "echo hi")).background = false
    ∧ (parse_line (chars "a  b   c")).argList = ["a  b   c"] := by
  refine ⟨by decide, by decide, by decide⟩

/-- Claim C4: for `"cmd &"` the claim expects arguments `["cmd"]` and
`background = true`.  Because the first `strtok_r` call does not treat
the space as a delimiter, `"cmd &"` is one token `"cmd &"` and
`background` stays `false`; with a tab instead (`"cmd\t&"`) the claimed
behaviour — `&` consumed, parsing stopped, launcher returns 0
immediately with the background pid recorded — does hold. -/
theorem C4_amp_after_space_not_recognized :
    (parse_line (chars "cmd &")).argList = ["cmd &"]
    ∧ (parse_line (chars "cmd &")).background = false
    ∧ (parse_line (chars "cmd\t&")).argList = ["cmd"]
    ∧ (parse_line (chars "cmd\t&")).background = true
    ∧ (parse_line (chars "cmd\t& ignored")).argList = ["cmd"]
    ∧ execute_external (parse_line (chars "cmd\t&")) ⟨some 3, []⟩
        = ⟨.ret 0, [], some 3⟩ := by
  refine ⟨by decide, by decide, by decide, by decide, by decide, by decide⟩

/-- Claim C8: the claim expects `"exit 7"` to terminate the process with
code 7.  Because the space is not a delimiter of the first `strtok_r`
call, `"exit 7"` parses to the single argument `"exit 7"`, which matches
no builtin (sentinel `-1`), is dispatched externally, and the shell then
reaches end-of-input with status 0 instead of terminating with 7.  With
a tab (`"exit\t7"`) the exit builtin does terminate the process with
code 7. -/
theorem C8_exit_with_argument_never_matches :
    (parse_line (chars "exit 7")).argList = ["exit 7"]
    ∧ (execute_builtin (parse_line (chars "exit 7"))
        ⟨some "/h", "/", fun _ _ => none, true⟩).1 = .ret (-1)
    ∧ (runShell [chars "exit 7"] [⟨some 9, [.ok (.exited 1)]⟩]
        ⟨⟨some "/h", "/", fun _ _ => none, true⟩, []⟩).1 = some 0
    ∧ (runShell [chars "exit\t7"] []
        ⟨⟨some "/h", "/", fun _ _ => none, true⟩, []⟩).1 = some 7
    ∧ (runShell [] [] ⟨⟨some "/h", "/", fun _ _ => none, true⟩, []⟩).1 = some 0 := by
  refine ⟨by decide, by decide, by decide, by decide, by decide⟩

/-- Claim C3: foreground launch protocol.  If `fork` fails the launcher
reports it and returns 1 without terminating the interpreter; in the
foreground case the wait is retried over any run of `EINTR`
interruptions, a normally-exited child yields its exit status
(`WEXITSTATUS`, the low 8 bits), and a `waitpid` failure other than
`EINTR` is reported and yields 1. -/
theorem C3_foreground_wait_protocol (cmd : Command) (h : cmd.background = false)
    (pid k c : Nat) (rest ws : List WaitRes) :
    execute_external cmd ⟨none, ws⟩ = ⟨.ret 1, [.forkFailed], none⟩
    ∧ execute_external cmd ⟨some pid, List.replicate k .eintr ++ .ok (.exited c) :: rest⟩
        = ⟨.ret ((c % 256 : Nat) : Int), [], none⟩
    ∧ execute_external cmd ⟨some pid, List.replicate k .eintr ++ .fail :: rest⟩
        = ⟨.ret 1, [.waitpidFailed], none⟩ := by
  refine ⟨rfl, ?_, ?_⟩ <;>
    simp [execute_external, h, waitLoop_eintr, waitLoop]

/-- Witness for C3 at a concrete foreground command, pid 5, two
interruptions, exit code 7, and a failing wait. -/
theorem C3_witness :
    execute_external (parse_line (chars "ls")) ⟨none, []⟩ = ⟨.ret 1, [.forkFailed], none⟩
    ∧ execute_external (parse_line (chars "ls"))
        ⟨some 5, List.replicate 2 .eintr ++ .ok (.exited 7) :: []⟩
        = ⟨.ret ((7 % 256 : Nat) : Int), [], none⟩
    ∧ execute_external (parse_line (chars "ls"))
        ⟨some 5, List.replicate 2 .eintr ++ .fail :: []⟩
        = ⟨.ret 1, [.waitpidFailed], none⟩ :=
  C3_foreground_wait_protocol (parse_line (chars "ls")) (by decide) 5 2 7 [] []

/-- Claim C10: a foreground child that terminates abnormally (not via a
normal exit) makes `execute_external` fall through the `WIFEXITED` test
to the final `return 0` — the same result as a child that exited
successfully, so the two runs are indistinguishable to the caller. -/
theorem C10_abnormal_termination_returns_zero (cmd : Command)
    (h : cmd.background = false) (pid k sig : Nat) (rest : List WaitRes) :
    execute_external cmd ⟨some pid, List.replicate k .eintr ++ .ok (.signaled sig) :: rest⟩
        = ⟨.ret 0, [], none⟩
    ∧ execute_external cmd ⟨some pid, List.replicate k .eintr ++ .ok (.signaled sig) :: rest⟩
        = execute_external cmd ⟨some pid, [.ok (.exited 0)]⟩ := by
  constructor <;> simp [execute_external, h, waitLoop_eintr, waitLoop]

/-- Witness for C10: a child of the foreground command `ls` killed by
signal 9 after one interruption yields status 0. -/
theorem C10_witness :
    execute_external (parse_line (chars "ls"))
        ⟨some 5, List.replicate 1 .eintr ++ .ok (.signaled 9) :: []⟩ = ⟨.ret 0, [], none⟩
    ∧ execute_external (parse_line (chars "ls"))
        ⟨some 5, List.replicate 1 .eintr ++ .ok (.signaled 9) :: []⟩
        = execute_external (parse_line (chars "ls")) ⟨some 5, [.ok (.exited 0)]⟩ :=
  C10_abnormal_termination_returns_zero (parse_line (chars "ls")) (by decide) 5 1 9 []

set_option maxRecDepth 10000 in
/-- Claim C9: for every input line the parsed `argc` is at most
`MAX_ARGS - 1` (63) — excess tokens are silently dropped, as the
100-token line shows — and the slot `args[argc]` is the NULL terminator
written at myshell.c line 124. -/
theorem C9_capacity_and_null_terminator :
    (∀ l, (parse_line l).argc ≤ MAX_ARGS - 1
      ∧ (parse_line l).args (parse_line l).argc = none)
    ∧ (parse_line bigLine).argc = MAX_ARGS - 1 := by
  constructor
  · intro l
    constructor
    · have hPL : (parse_line l).argc = (parse_line_core l).argc := rfl
      rw [hPL]
      unfold parse_line_core
      cases h : strtokStep delims1 l with
      | none => simp [MAX_ARGS]
      | some tr =>
        obtain ⟨t, r⟩ := tr
        exact parseLoop_argc_le _ _ _ _ (by simp [MAX_ARGS])
    · show (Function.update (parse_line_core l).args (parse_line_core l).argc none)
            ((parse_line_core l).argc) = none
      exact Function.update_same _ _ _
  · decide

/-- Claim C2 counterexample: the claim says `argc = 0` exactly for empty
or whitespace-only lines, never dispatched.  The line `"&"` is neither
empty nor whitespace-only yet parses with `argc = 0`; and the
space-only line `" "` is whitespace-only yet parses with `argc = 1`
(the space is not a delimiter of the first `strtok_r` call), so it IS
dispatched. -/
theorem C2_counterexample :
    (parse_line (chars "&")).argc = 0
    ∧ wsOnly (chars "&") = false
    ∧ chars "&" ≠ []
    ∧ (parse_line (chars " ")).argc = 1
    ∧ wsOnly (chars " ") = true := by
  refine ⟨by decide, by decide, by decide, by decide, by decide⟩

/-- Claim C2 (amended): `argc = 0` exactly when the first `strtok_r`
call (delimiters tab, CR, newline — not space) yields no token or
yields exactly `"&"`; and a command with `argc = 0` is never
dispatched — `execute_command` returns 0 with the world untouched, no
diagnostics, no child. -/
theorem C2_amended_argc_zero_iff (l : List Char) (w : World) (o : ExtOracle) :
    ((parse_line l).argc = 0 ↔ firstTokStops l = true)
    ∧ ((parse_line l).argc = 0 →
        execute_command (parse_line l) w o = ⟨.ret 0, w, [], none, false⟩) := by
  constructor
  · have hPL : (parse_line l).argc = (parse_line_core l).argc := rfl
    rw [hPL]
    unfold parse_line_core firstTokStops
    cases h : strtokStep delims1 l with
    | none => simp
    | some tr =>
      obtain ⟨t, r⟩ := tr
      simp only
      by_cases ht : t = ['&']
      · subst ht
        rw [parseLoop_amp l.length ⟨fun _ => none, 0, false⟩ r (by decide)]
        simp
      · have hp := parseLoop_pos l.length ⟨fun _ => none, 0, false⟩ t r ht (by decide)
        constructor
        · intro h0; omega
        · intro hb
          exact absurd (by simpa using hb) ht
  · intro h0
    unfold execute_command
    rw [if_pos h0]

/-- Witness for the amended C2 at the line `"&"`: `argc = 0`, the first
token is exactly `&`, and the command is not dispatched. -/
theorem C2_amended_witness :
    ((parse_line (chars "&")).argc = 0 ↔ firstTokStops (chars "&") = true)
    ∧ execute_command (parse_line (chars "&"))
        ⟨some "/h", "/", fun _ _ => none, true⟩ ⟨none, []⟩
      = ⟨.ret 0, ⟨some "/h", "/", fun _ _ => none, true⟩, [], none, false⟩ :=
  ⟨(C2_amended_argc_zero_iff (chars "&")
      ⟨some "/h", "/", fun _ _ => none, true⟩ ⟨none, []⟩).1,
   (C2_amended_argc_zero_iff (chars "&")
      ⟨some "/h", "/", fun _ _ => none, true⟩ ⟨none, []⟩).2 (by decide)⟩

/-- Claim C5: the claim says the handler sets a flag and the main loop
then drains all terminated background children.  The handler (modelled
from the spec, its body being absent from the tree) does set the flag;
but `main` never reads `child_exited` and contains no non-blocking
`waitpid` loop, so a pid once in `bgChildren` is still there after any
further input — and the concrete background run below ends with its
child still unreaped. -/
theorem C5_background_children_never_reaped :
    (∀ f, sigchld_handler f = true)
    ∧ (∀ lines os st p, p ∈ st.bgChildren → p ∈ (runShell lines os st).2.bgChildren)
    ∧ (runShell [chars "sleep\t1\t&"] [⟨some 7, []⟩]
        ⟨⟨some "/h", "/", fun _ _ => none, true⟩, []⟩).1 = some 0
    ∧ (runShell [chars "sleep\t1\t&"] [⟨some 7, []⟩]
        ⟨⟨some "/h", "/", fun _ _ => none, true⟩, []⟩).2.bgChildren = [7] := by
  refine ⟨fun f => rfl, ?_, by decide, by decide⟩
  intro lines
  induction lines with
  | nil => intro os st p hp; simpa [runShell] using hp
  | cons line rest ih =>
    intro os st p hp
    simp only [runShell]
    split
    · exact ih os st p hp
    · split
      · split
        · exact List.mem_append_left _ hp
        · exact List.mem_append_left _ hp
        · exact ih _ _ p (List.mem_append_left _ hp)
      · exact ih os st p hp

/-- Witness for the C5 monotonicity conjunct: a pid already spawned
(5) is still unreaped after the loop ends at end-of-input. -/
theorem C5_witness :
    5 ∈ (runShell [] [] ⟨⟨some "/h", "/", fun _ _ => none, true⟩, [5]⟩).2.bgChildren :=
  C5_background_children_never_reaped.2.1 [] []
    ⟨⟨some "/h", "/", fun _ _ => none, true⟩, [5]⟩ 5 (by simp)

/-- Claim C6: the builtin dispatcher returns the sentinel `-1` — a
value outside the 0–255 exit-status range — exactly when `args[0]` is
none of `cd`, `exit`, `pwd`, `help`; and on that sentinel
`execute_command` runs the external path. -/
theorem C6_sentinel_iff_not_builtin (cmd : Command) (w : World) (o : ExtOracle)
    (a0 : String) (h0 : cmd.arg 0 = some a0) (hc : 0 < cmd.argc) :
    (¬ (0 ≤ (-1 : Int) ∧ (-1 : Int) ≤ 255))
    ∧ ((execute_builtin cmd w).1 = .ret (-1)
        ↔ (a0 ≠ "cd" ∧ a0 ≠ "exit" ∧ a0 ≠ "pwd" ∧ a0 ≠ "help"))
    ∧ ((execute_builtin cmd w).1 = .ret (-1) →
        (execute_command cmd w o).res = (execute_external cmd o).res
        ∧ (execute_command cmd w o).usedOracle = true) := by
  have hg : (cmd.arg 0).getD "" = a0 := by rw [h0]; rfl
  refine ⟨by decide, ?_, ?_⟩
  · unfold execute_builtin
    rw [hg]
    by_cases h1 : a0 = "cd"
    · subst h1
      rw [if_pos rfl]
      constructor
      · intro hret
        exfalso
        cases hp : (if 1 < cmd.argc then cmd.arg 1 else w.home) with
        | none => rw [hp] at hret; simp at hret
        | some p =>
          rw [hp] at hret
          cases hch : w.chdir w.cwd p with
          | none => simp [hch] at hret
          | some nc => simp [hch] at hret
      · intro habs
        exact absurd rfl habs.1
    · rw [if_neg h1]
      by_cases h2 : a0 = "exit"
      · subst h2
        rw [if_pos rfl]
        simp
      · rw [if_neg h2]
        by_cases h3 : a0 = "help"
        · subst h3
          rw [if_pos rfl]
          simp [h1, h2]
        · rw [if_neg h3]
          by_cases h4 : a0 = "pwd"
          · subst h4
            rw [if_pos rfl]
            constructor
            · intro hret
              exfalso
              cases hgc : w.getcwdOk with
              | true => simp [hgc] at hret
              | false => simp [hgc] at hret
            · intro habs
              exact absurd rfl habs.2.2.1
          · rw [if_neg h4]
            simp [h1, h2, h3, h4]
  · intro hsent
    unfold execute_command
    rw [if_neg (by omega)]
    rcases hEB : execute_builtin cmd w with ⟨r, w', errs⟩
    rw [hEB] at hsent
    simp only at hsent
    subst hsent
    simp

/-- Witness for C6 at the non-builtin command name `foo`. -/
theorem C6_witness :
    (¬ (0 ≤ (-1 : Int) ∧ (-1 : Int) ≤ 255))
    ∧ ((execute_builtin (parse_line (chars "foo"))
          ⟨some "/h", "/", fun _ _ => none, true⟩).1 = .ret (-1)
        ↔ ("foo" ≠ "cd" ∧ "foo" ≠ "exit" ∧ "foo" ≠ "pwd" ∧ "foo" ≠ "help"))
    ∧ ((execute_builtin (parse_line (chars "foo"))
          ⟨some "/h", "/", fun _ _ => none, true⟩).1 = .ret (-1) →
        (execute_command (parse_line (chars "foo"))
            ⟨some "/h", "/", fun _ _ => none, true⟩ ⟨none, []⟩).res
          = (execute_external (parse_line (chars "foo")) ⟨none, []⟩).res
        ∧ (execute_command (parse_line (chars "foo"))
            ⟨some "/h", "/", fun _ _ => none, true⟩ ⟨none, []⟩).usedOracle = true) :=
  C6_sentinel_iff_not_builtin (parse_line (chars "foo"))
    ⟨some "/h", "/", fun _ _ => none, true⟩ ⟨none, []⟩ "foo" (by decide) (by decide)

/-- Claim C7: a failing `cd` — target cannot be entered, or no argument
with `HOME` unset — returns status 1, leaves the working directory (the
whole world) unchanged, and the two causes are reported by distinct
diagnostics. -/
theorem C7_cd_failures (w₁ w₂ : World) (c₁ c₂ : Command) (p : String)
    (h₁ : c₁.arg 0 = some "cd") (h₂ : 1 < c₁.argc) (h₃ : c₁.arg 1 = some p)
    (h₄ : w₁.chdir w₁.cwd p = none)
    (h₅ : c₂.arg 0 = some "cd") (h₆ : c₂.argc = 1) (h₇ : w₂.home = none) :
    execute_builtin c₁ w₁ = (.ret 1, w₁, [.chdirFailed])
    ∧ execute_builtin c₂ w₂ = (.ret 1, w₂, [.homeNotSet])
    ∧ ErrMsg.chdirFailed ≠ ErrMsg.homeNotSet := by
  refine ⟨?_, ?_, by decide⟩
  · simp [execute_builtin, h₁, h₂, h₃, h₄]
  · have h₆' : ¬ 1 < c₂.argc := by omega
    simp [execute_builtin, h₅, h₆', h₇]

/-- Witness for C7: `cd` to `/nonexistent` in a world where every
`chdir` fails, and argument-less `cd` in a world without `HOME`. -/
theorem C7_witness :
    execute_builtin (parse_line (chars "cd\t/nonexistent"))
        ⟨some "/h", "/", fun _ _ => none, true⟩
      = (.ret 1, ⟨some "/h", "/", fun _ _ => none, true⟩, [.chdirFailed])
    ∧ execute_builtin (parse_line (chars "cd")) ⟨none, "/", fun _ _ => none, true⟩
      = (.ret 1, ⟨none, "/", fun _ _ => none, true⟩, [.homeNotSet])
    ∧ ErrMsg.chdirFailed ≠ ErrMsg.homeNotSet :=
  C7_cd_failures ⟨some "/h", "/", fun _ _ => none, true⟩
    ⟨none, "/", fun _ _ => none, true⟩
    (parse_line (chars "cd\t/nonexistent")) (parse_line (chars "cd")) "/nonexistent"
    (by decide) (by decide) (by decide) rfl (by decide) (by decide) rfl

end Minimall
